import Mathlib

/-!
Shallow embedding of the systematic-alpha decision pipeline of this repository:
market-disposition classification (`define_disposition`), position sizing
(`calculate_sizing`), the liquidity safeguard (`check_liquidity`), profit-mechanism
fitting (`fit_mechanism`), beta weighting (`calc_beta_weighting`) and the pre-trade
checklist gate (`pre_trade_checklist`), together with theorems about the
documented decision rules.  Dollar amounts, prices and percentages are modelled
as rationals; contract counts as naturals.
-/

namespace SystematicAlpha

/-! ### Market disposition (define_disposition task)

Step 5 aggregates the signal scores into a total score and assigns one of five
dispositions; each disposition carries a recommended SPY delta target. -/

/-- The five market-disposition tiers of the define_disposition task. -/
inductive Disposition
  | STRONG_BULL
  | BULL
  | NEUTRAL
  | BEAR
  | STRONG_BEAR
deriving DecidableEq

/-- Step 5 "Aggregate Score and Determine Disposition": the processing-logic
thresholds are `>= 5`, `>= 2`, `>= -1`, `>= -4`, else strong bear. -/
def determineDisposition (totalScore : Int) : Disposition :=
  if totalScore ≥ 5 then .STRONG_BULL
  else if totalScore ≥ 2 then .BULL
  else if totalScore ≥ -1 then .NEUTRAL
  else if totalScore ≥ -4 then .BEAR
  else .STRONG_BEAR

/-- Recommended net-delta target (in SPY shares) attached to each disposition
in Step 5 of define_disposition. -/
def recommendedDeltaTarget : Disposition → Int
  | .STRONG_BULL => 60
  | .BULL => 40
  | .NEUTRAL => 0
  | .BEAR => -40
  | .STRONG_BEAR => -60

/-- The "Score Interpretation" table from the Decision Rules section of the
same task: +7..+10 strong bull, +2..+6 bull, -1..+1 neutral, -6..-2 bear,
-10..-7 strong bear. -/
def scoreInterpretationTable (totalScore : Int) : Disposition :=
  if totalScore ≥ 7 then .STRONG_BULL
  else if totalScore ≥ 2 then .BULL
  else if totalScore ≥ -1 then .NEUTRAL
  else if totalScore ≥ -6 then .BEAR
  else .STRONG_BEAR

/-! ### Position sizing (calculate_sizing task) -/

/-- Position classification used by sizing and by the pre-trade checklist. -/
inductive PositionType
  | core
  | speculative
deriving DecidableEq

/-- Conviction level used by sizing and by the pre-trade checklist. -/
inductive ConvictionLevel
  | HIGH
  | MODERATE
  | LOW
deriving DecidableEq

/-- Step 1: base allocation percentage by position type (10% core, 2% speculative). -/
def baseAllocationPct : PositionType → ℚ
  | .core => 10 / 100
  | .speculative => 2 / 100

/-- Step 2: conviction multiplier (1.0 / 0.7 / 0.5). -/
def convictionMultiplier : ConvictionLevel → ℚ
  | .HIGH => 1
  | .MODERATE => 7 / 10
  | .LOW => 1 / 2

/-- Step 4: maximum risk percentage by classification-and-conviction cross lookup. -/
def maxRiskPct : PositionType → ConvictionLevel → ℚ
  | .core, .HIGH => 3 / 100
  | .core, .MODERATE => 2 / 100
  | .core, .LOW => 1 / 100
  | .speculative, .HIGH => 2 / 100
  | .speculative, .MODERATE => 15 / 1000
  | .speculative, .LOW => 1 / 100

/-- Input record of the calculate_sizing task.  `correlation` and
`existingExposurePct` are the optional inputs; `existingExposurePct` is a
fraction of portfolio value (the task compares it with 0.15). -/
structure SizingInput where
  portfolioTotalValue : ℚ
  positionType : PositionType
  convictionLevel : ConvictionLevel
  debitPaid : ℚ
  maxLossPerSpread : ℚ
  positionValuePerContract : ℚ
  correlation : Option ℚ
  existingExposurePct : Option ℚ

/-- Step 3: dollar allocation = portfolio value × adjusted allocation pct. -/
def dollarAllocation (inp : SizingInput) : ℚ :=
  inp.portfolioTotalValue * (baseAllocationPct inp.positionType * convictionMultiplier inp.convictionLevel)

/-- Step 4: max dollar risk = portfolio value × max risk pct. -/
def maxDollarRisk (inp : SizingInput) : ℚ :=
  inp.portfolioTotalValue * maxRiskPct inp.positionType inp.convictionLevel

/-- Step 5 Method 1: allocation-based contract count, rounded down. -/
def contractsFromAllocation (inp : SizingInput) : ℕ :=
  ⌊dollarAllocation inp / inp.debitPaid⌋₊

/-- Step 5 Method 2: risk-based contract count, rounded down. -/
def contractsFromRisk (inp : SizingInput) : ℕ :=
  ⌊maxDollarRisk inp / inp.maxLossPerSpread⌋₊

/-- Step 5: `final_contracts = MIN(contracts_from_allocation, contracts_from_risk)`,
before the Step 6/7 adjustments. -/
def initialContracts (inp : SizingInput) : ℕ :=
  min (contractsFromAllocation inp) (contractsFromRisk inp)

/-- Step 6 reduction factor: >0.8 cut by 50%, >0.7 cut by 30%, >0.5 cut by 15%. -/
def correlationReduction (c : ℚ) : ℚ :=
  if c > 4 / 5 then 1 / 2
  else if c > 7 / 10 then 7 / 10
  else 17 / 20

/-- Step 6: apply the correlation adjustment when a correlation above 0.5 with
an existing holding is provided, rounding down. -/
def contractsAfterCorrelation (inp : SizingInput) : ℕ :=
  match inp.correlation with
  | none => initialContracts inp
  | some c =>
      if c > 1 / 2 then ⌊(initialContracts inp : ℚ) * correlationReduction c⌋₊
      else initialContracts inp

/-- Step 7: concentration cap — if existing plus new exposure to the ticker
would exceed 15% of portfolio value, reduce to the maximum count that respects
the ceiling. -/
def contractsAfterConcentration (inp : SizingInput) : ℕ :=
  match inp.existingExposurePct with
  | none => contractsAfterCorrelation inp
  | some e =>
      let n := contractsAfterCorrelation inp
      let newExposurePct : ℚ := (n : ℚ) * inp.positionValuePerContract / inp.portfolioTotalValue
      if e + newExposurePct > 15 / 100 then
        min n ⌊(15 / 100 - e) * inp.portfolioTotalValue / inp.positionValuePerContract⌋₊
      else n

/-- Result record of the calculate_sizing task (Step 8 "Validate and Finalize").
`riskAborted` is the Step 8 check 4 `ERROR` condition (risk above 5% of
portfolio), `minimumMet` the Step 8 check 1 minimum-position condition. -/
structure PositionSizeResult where
  finalContracts : ℕ
  capitalDeployed : ℚ
  maxRisk : ℚ
  riskPct : ℚ
  minimumMet : Bool
  riskAborted : Bool
deriving DecidableEq

/-- The calculate_sizing pipeline: Steps 1-8 composed. -/
def calculateSizing (inp : SizingInput) : PositionSizeResult :=
  let n := contractsAfterConcentration inp
  let totalRisk : ℚ := (n : ℚ) * inp.maxLossPerSpread
  let riskPct : ℚ := totalRisk / inp.portfolioTotalValue * 100
  { finalContracts := n
    capitalDeployed := (n : ℚ) * inp.positionValuePerContract
    maxRisk := totalRisk
    riskPct := riskPct
    minimumMet := decide (1 ≤ n)
    riskAborted := decide (riskPct > 5) }

/-- SECTION 4 of the pre-trade checklist: `max_risk_allowed` by position type
and conviction (3% core high-conviction, 2% otherwise). -/
def gateMaxRiskAllowed : PositionType → ConvictionLevel → ℚ
  | .core, .HIGH => 3 / 100
  | .core, _ => 2 / 100
  | .speculative, _ => 2 / 100

/-- The sizer's risk ceiling is at most 3% for every classification/conviction pair. -/
theorem maxRiskPct_le (pt : PositionType) (c : ConvictionLevel) :
    maxRiskPct pt c ≤ 3 / 100 := by
  cases pt <;> cases c <;> norm_num [maxRiskPct]

/-- The sizer's risk ceiling is nonnegative. -/
theorem maxRiskPct_nonneg (pt : PositionType) (c : ConvictionLevel) :
    0 ≤ maxRiskPct pt c := by
  cases pt <;> cases c <;> norm_num [maxRiskPct]

/-- The Step 6 correlation reduction factor lies in [0, 1]. -/
theorem correlationReduction_mem (c : ℚ) :
    0 ≤ correlationReduction c ∧ correlationReduction c ≤ 1 := by
  unfold correlationReduction
  split <;> [skip; split] <;> norm_num

/-- The Step 7 concentration cap never increases the contract count. -/
theorem contractsAfterConcentration_le (inp : SizingInput) :
    contractsAfterConcentration inp ≤ contractsAfterCorrelation inp := by
  unfold contractsAfterConcentration
  cases inp.existingExposurePct with
  | none => exact le_rfl
  | some e =>
      simp only
      split
      · exact min_le_left _ _
      · exact le_rfl

/-- The Step 6 correlation adjustment never increases the contract count. -/
theorem contractsAfterCorrelation_le (inp : SizingInput) :
    contractsAfterCorrelation inp ≤ initialContracts inp := by
  unfold contractsAfterCorrelation
  cases inp.correlation with
  | none => exact le_rfl
  | some c =>
      simp only
      split
      · calc ⌊(initialContracts inp : ℚ) * correlationReduction c⌋₊
            ≤ ⌊(initialContracts inp : ℚ)⌋₊ := by
              apply Nat.floor_mono
              calc (initialContracts inp : ℚ) * correlationReduction c
                  ≤ (initialContracts inp : ℚ) * 1 := by
                    apply mul_le_mul_of_nonneg_left (correlationReduction_mem c).2
                    positivity
                _ = (initialContracts inp : ℚ) := mul_one _
          _ = initialContracts inp := Nat.floor_natCast _
      · exact le_rfl

/-- Risk-based contracts times per-spread loss never exceed the risk budget. -/
theorem contractsFromRisk_mul_le (inp : SizingInput)
    (hV : 0 < inp.portfolioTotalValue) (hL : 0 < inp.maxLossPerSpread) :
    (contractsFromRisk inp : ℚ) * inp.maxLossPerSpread ≤ maxDollarRisk inp := by
  have hR : 0 ≤ maxDollarRisk inp := by
    unfold maxDollarRisk
    exact mul_nonneg hV.le (maxRiskPct_nonneg _ _)
  have hfl : (contractsFromRisk inp : ℚ) ≤ maxDollarRisk inp / inp.maxLossPerSpread :=
    Nat.floor_le (by positivity)
  calc (contractsFromRisk inp : ℚ) * inp.maxLossPerSpread
      ≤ maxDollarRisk inp / inp.maxLossPerSpread * inp.maxLossPerSpread :=
        mul_le_mul_of_nonneg_right hfl hL.le
    _ = maxDollarRisk inp := div_mul_cancel₀ _ hL.ne'

/-- C1 scenario input: NVDA Jan 500/520 call vertical, core position, high
conviction, $1,200 debit and max loss per contract, $100,000 portfolio. -/
def nvdaSizingInput : SizingInput :=
  { portfolioTotalValue := 100000
    positionType := .core
    convictionLevel := .HIGH
    debitPaid := 1200
    maxLossPerSpread := 1200
    positionValuePerContract := 1200
    correlation := none
    existingExposurePct := none }

/-- C1: for every valid sizing input (positive portfolio value, positive
per-unit maximum loss, any classification, conviction tier and
correlation/concentration situation), the PositionSizeResult returned by
the calculate_sizing pipeline implies dollar risk (final contract count
times per-unit maximum loss) at most 5% of portfolio value. -/
theorem positionSizer_risk_ceiling (inp : SizingInput)
    (hV : 0 < inp.portfolioTotalValue) (hL : 0 < inp.maxLossPerSpread) :
    ((calculateSizing inp).finalContracts : ℚ) * inp.maxLossPerSpread ≤
      5 / 100 * inp.portfolioTotalValue := by
  have hn : (calculateSizing inp).finalContracts ≤ contractsFromRisk inp := by
    calc (calculateSizing inp).finalContracts
        = contractsAfterConcentration inp := rfl
      _ ≤ contractsAfterCorrelation inp := contractsAfterConcentration_le inp
      _ ≤ initialContracts inp := contractsAfterCorrelation_le inp
      _ ≤ contractsFromRisk inp := min_le_right _ _
  calc ((calculateSizing inp).finalContracts : ℚ) * inp.maxLossPerSpread
      ≤ (contractsFromRisk inp : ℚ) * inp.maxLossPerSpread := by
        apply mul_le_mul_of_nonneg_right _ hL.le
        exact_mod_cast hn
    _ ≤ maxDollarRisk inp := contractsFromRisk_mul_le inp hV hL
    _ ≤ 3 / 100 * inp.portfolioTotalValue := by
        unfold maxDollarRisk
        rw [mul_comm]
        exact mul_le_mul_of_nonneg_right (maxRiskPct_le _ _) hV.le
    _ ≤ 5 / 100 * inp.portfolioTotalValue := by
        apply mul_le_mul_of_nonneg_right _ hV.le
        norm_num

/-- Witness for C1: the risk ceiling theorem applied at the concrete NVDA
scenario input. -/
theorem positionSizer_risk_ceiling_witness :
    ((calculateSizing nvdaSizingInput).finalContracts : ℚ) *
        nvdaSizingInput.maxLossPerSpread ≤
      5 / 100 * nvdaSizingInput.portfolioTotalValue :=
  positionSizer_risk_ceiling nvdaSizingInput (by norm_num [nvdaSizingInput])
    (by norm_num [nvdaSizingInput])

/-- C7: when no correlation or concentration adjustment applies, the
calculate_sizing pipeline's final contract count is the minimum of the
allocation-based and risk-based counts (Step 5), and on the worked core /
high-conviction scenario ($1,200 loss per spread, $100,000 portfolio) the
allocation method yields 8, the risk method 2, and the final size is 2. -/
theorem positionSizer_min_of_two_methods :
    (∀ inp : SizingInput, inp.correlation = none → inp.existingExposurePct = none →
        (calculateSizing inp).finalContracts =
          min (contractsFromAllocation inp) (contractsFromRisk inp)) ∧
    contractsFromAllocation nvdaSizingInput = 8 ∧
    contractsFromRisk nvdaSizingInput = 2 ∧
    (calculateSizing nvdaSizingInput).finalContracts = 2 := by
  have hgen : ∀ inp : SizingInput, inp.correlation = none → inp.existingExposurePct = none →
      (calculateSizing inp).finalContracts =
        min (contractsFromAllocation inp) (contractsFromRisk inp) := by
    intro inp hc he
    show contractsAfterConcentration inp = _
    unfold contractsAfterConcentration contractsAfterCorrelation
    rw [hc, he]
    rfl
  have halloc : contractsFromAllocation nvdaSizingInput = 8 := by
    unfold contractsFromAllocation
    rw [show dollarAllocation nvdaSizingInput / nvdaSizingInput.debitPaid = 25 / 3 by
      norm_num [dollarAllocation, nvdaSizingInput, baseAllocationPct, convictionMultiplier]]
    rw [Nat.floor_eq_iff (by norm_num)]
    norm_num
  have hrisk : contractsFromRisk nvdaSizingInput = 2 := by
    unfold contractsFromRisk
    rw [show maxDollarRisk nvdaSizingInput / nvdaSizingInput.maxLossPerSpread = 5 / 2 by
      norm_num [maxDollarRisk, nvdaSizingInput, maxRiskPct]]
    rw [Nat.floor_eq_iff (by norm_num)]
    norm_num
  refine ⟨hgen, halloc, hrisk, ?_⟩
  rw [hgen nvdaSizingInput rfl rfl, halloc, hrisk]
  decide

/-- Witness for C7: the general minimum-of-two-methods statement instantiated
at the concrete NVDA scenario input. -/
theorem positionSizer_min_of_two_methods_witness :
    (calculateSizing nvdaSizingInput).finalContracts =
      min (contractsFromAllocation nvdaSizingInput) (contractsFromRisk nvdaSizingInput) :=
  positionSizer_min_of_two_methods.1 nvdaSizingInput rfl rfl

/-- C3: how the define_disposition task actually assigns dispositions.  The
worked scenario holds: a total score of 8 yields STRONG_BULL with recommended
delta target +60.  But the Step 5 processing logic promotes a total score of 6
(and 5) to STRONG_BULL and demotes -5 (and -6) to STRONG_BEAR, while the same
task's own "Score Interpretation" decision-rules table places 6 in the BULL
band (+40) and -5 in the BEAR band (-40): the five claimed bands (≥7 strongest
bull, ≤-7 strongest bear) match the table but not the processing logic. -/
theorem regimeClassifier_band_divergence :
    determineDisposition 8 = .STRONG_BULL ∧
    recommendedDeltaTarget (determineDisposition 8) = 60 ∧
    scoreInterpretationTable 6 = .BULL ∧
    determineDisposition 6 = .STRONG_BULL ∧
    scoreInterpretationTable (-5) = .BEAR ∧
    determineDisposition (-5) = .STRONG_BEAR := by
  decide

/-- C10 counterexample: for a core position at LOW conviction the sizer's
risk-budget table allows 1% while the pre-trade checklist's SECTION 4 allows
2%, so the two components do not apply the same risk-budget table. -/
theorem riskTables_differ_at_core_low :
    maxRiskPct .core .LOW = 1 / 100 ∧
    gateMaxRiskAllowed .core .LOW = 2 / 100 ∧
    maxRiskPct .core .LOW ≠ gateMaxRiskAllowed .core .LOW := by
  refine ⟨rfl, rfl, ?_⟩
  norm_num [maxRiskPct, gateMaxRiskAllowed]

/-- C10 amended: the two tables agree on core/HIGH (3%), core/MODERATE (2%)
and speculative/HIGH (2%), and on every pair the checklist's SECTION 4 limit
is at least the sizer's limit, so a position sized at the sizer's limit is
never rejected by the checklist's risk-per-trade bound. -/
theorem gate_risk_table_refines_sizer_table :
    (∀ pt : PositionType, ∀ c : ConvictionLevel,
        maxRiskPct pt c ≤ gateMaxRiskAllowed pt c) ∧
    maxRiskPct .core .HIGH = gateMaxRiskAllowed .core .HIGH ∧
    maxRiskPct .core .MODERATE = gateMaxRiskAllowed .core .MODERATE ∧
    maxRiskPct .speculative .HIGH = gateMaxRiskAllowed .speculative .HIGH := by
  refine ⟨?_, rfl, rfl, rfl⟩
  intro pt c
  cases pt <;> cases c <;> norm_num [maxRiskPct, gateMaxRiskAllowed]

/-! ### Liquidity safeguard (check_liquidity task) -/

/-- Per-leg market data consumed by the check_liquidity task. -/
structure LiquidityLeg where
  bid : ℚ
  ask : ℚ
  bidSize : ℕ
  askSize : ℕ
  volume : ℕ
  openInterest : ℕ
  lastTradeMinutesAgo : ℚ
  positionSize : ℕ

/-- Step 2: absolute spread in dollars. -/
def spreadDollars (leg : LiquidityLeg) : ℚ := leg.ask - leg.bid

/-- Step 2: mid price. -/
def midPrice (leg : LiquidityLeg) : ℚ := (leg.bid + leg.ask) / 2

/-- Step 2: spread as a percentage of mid price. -/
def spreadPctOfMid (leg : LiquidityLeg) : ℚ :=
  spreadDollars leg / midPrice leg * 100

/-- Step 3 tiered spread-quality labels. -/
inductive SpreadTier
  | EXCELLENT
  | ACCEPTABLE
  | POOR
  | UNACCEPTABLE
deriving DecidableEq

/-- Step 3 "TIERED THRESHOLDS": ≤0.2% excellent, ≤0.5% acceptable,
≤1.0% poor (warning), above that unacceptable. -/
def spreadTier (leg : LiquidityLeg) : SpreadTier :=
  if spreadPctOfMid leg ≤ 2 / 10 then .EXCELLENT
  else if spreadPctOfMid leg ≤ 5 / 10 then .ACCEPTABLE
  else if spreadPctOfMid leg ≤ 1 then .POOR
  else .UNACCEPTABLE

/-- Step 10 component 1: spread-quality points. -/
def spreadPoints (leg : LiquidityLeg) : ℕ :=
  if spreadPctOfMid leg ≤ 2 / 10 then 20
  else if spreadPctOfMid leg ≤ 5 / 10 then 15
  else if spreadPctOfMid leg ≤ 1 then 10
  else 0

/-- Step 10 component 2: volume points. -/
def volumePoints (leg : LiquidityLeg) : ℕ :=
  if leg.volume ≥ 5000 then 20
  else if leg.volume ≥ 1000 then 15
  else if leg.volume ≥ 500 then 10
  else if leg.volume ≥ 100 then 5
  else 0

/-- Step 10 component 3: open-interest points. -/
def openInterestPoints (leg : LiquidityLeg) : ℕ :=
  if leg.openInterest ≥ 10000 then 20
  else if leg.openInterest ≥ 5000 then 15
  else if leg.openInterest ≥ 1000 then 10
  else if leg.openInterest ≥ 500 then 5
  else 0

/-- Step 10 component 4: market-depth points, judged on the thinner side of
the book relative to the intended position size. -/
def depthPoints (leg : LiquidityLeg) : ℕ :=
  let s := min leg.bidSize leg.askSize
  if s ≥ 2 * leg.positionSize then 20
  else if s ≥ leg.positionSize then 15
  else if 2 * s ≥ leg.positionSize then 10
  else 0

/-- Step 10 component 5: quote-recency points. -/
def recencyPoints (leg : LiquidityLeg) : ℕ :=
  if leg.lastTradeMinutesAgo < 5 then 20
  else if leg.lastTradeMinutesAgo < 30 then 15
  else if leg.lastTradeMinutesAgo < 120 then 10
  else 0

/-- Step 10: 0-100 composite liquidity score. -/
def liquidityScore (leg : LiquidityLeg) : ℕ :=
  spreadPoints leg + volumePoints leg + openInterestPoints leg +
    depthPoints leg + recencyPoints leg

/-- Decision-rules "Automatic Rejection Criteria": any one of the listed
conditions triggers rejection. -/
def automaticReject (leg : LiquidityLeg) : Prop :=
  spreadPctOfMid leg > 1 ∨
  leg.volume < 100 ∨
  leg.volume < leg.positionSize * 20 ∨
  leg.openInterest < 500 ∨
  leg.openInterest < leg.positionSize * 50 ∨
  leg.lastTradeMinutesAgo > 120 ∨
  leg.bid = 0 ∨
  leg.ask = 0 ∨
  liquidityScore leg < 40

instance (leg : LiquidityLeg) : Decidable (automaticReject leg) := by
  unfold automaticReject
  infer_instance

/-- Decision-rules "Warning Criteria" item 1: a spread between 0.5% and 1.0%
of mid is flagged as a warning. -/
def spreadWarning (leg : LiquidityLeg) : Prop :=
  5 / 10 < spreadPctOfMid leg ∧ spreadPctOfMid leg ≤ 1

instance (leg : LiquidityLeg) : Decidable (spreadWarning leg) := by
  unfold spreadWarning
  infer_instance

/-- Decision-rules "Approval Criteria" beyond the absence of automatic
rejections: spread within the warning cap, tradeable volume, open interest
at least 1000 and composite score at least 60. -/
def approvalCriteria (leg : LiquidityLeg) : Prop :=
  spreadPctOfMid leg ≤ 1 ∧ leg.volume ≥ 100 ∧ leg.openInterest ≥ 1000 ∧
    liquidityScore leg ≥ 60

instance (leg : LiquidityLeg) : Decidable (approvalCriteria leg) := by
  unfold approvalCriteria
  infer_instance

/-- Overall per-leg verdict of the check_liquidity task. -/
inductive LiquidityStatus
  | APPROVED
  | REJECTED
deriving DecidableEq

/-- Step 11 final decision: reject on any automatic-rejection criterion,
approve when the approval criteria hold. -/
def liquidityStatus (leg : LiquidityLeg) : LiquidityStatus :=
  if automaticReject leg then .REJECTED
  else if approvalCriteria leg then .APPROVED
  else .REJECTED

/-- C5: a spread above the 1.0% hard cap rejects the leg no matter how good
volume, open interest, depth and recency are — the hard rule is
non-compensating and cannot be outweighed by the composite score. -/
theorem liquidityGate_hard_spread_cap (leg : LiquidityLeg)
    (h : spreadPctOfMid leg > 1) :
    liquidityStatus leg = .REJECTED := by
  unfold liquidityStatus
  rw [if_pos (show automaticReject leg from Or.inl h)]

/-- C5 witness leg: an otherwise-excellent market (huge volume, open interest
and depth, a one-minute-old print) whose spread is 2.96% of mid. -/
def wideSpreadLeg : LiquidityLeg :=
  { bid := 10
    ask := 103 / 10
    bidSize := 500
    askSize := 500
    volume := 10000
    openInterest := 20000
    lastTradeMinutesAgo := 1
    positionSize := 2 }

/-- Witness for C5: the hard spread cap fires on the concrete wide-spread leg. -/
theorem liquidityGate_hard_spread_cap_witness :
    liquidityStatus wideSpreadLeg = .REJECTED :=
  liquidityGate_hard_spread_cap wideSpreadLeg (by
    norm_num [spreadPctOfMid, spreadDollars, midPrice, wideSpreadLeg])

/-- C6 scenario leg: NVDA Jan 500 call quoted 28.40 × 150 / 28.60 × 200,
volume 8,524, open interest 15,234, last trade 2 minutes ago, 2 contracts. -/
def nvda500Leg : LiquidityLeg :=
  { bid := 142 / 5
    ask := 143 / 5
    bidSize := 150
    askSize := 200
    volume := 8524
    openInterest := 15234
    lastTradeMinutesAgo := 2
    positionSize := 2 }

/-- The scenario leg's spread is 40/57 ≈ 0.70% of mid. -/
theorem nvda500Leg_spreadPct : spreadPctOfMid nvda500Leg = 40 / 57 := by
  norm_num [spreadPctOfMid, spreadDollars, midPrice, nvda500Leg]

/-- The scenario leg's composite liquidity score is 90 (10 + 20 + 20 + 20 + 20). -/
theorem nvda500Leg_score : liquidityScore nvda500Leg = 90 := by
  unfold liquidityScore spreadPoints volumePoints openInterestPoints depthPoints recencyPoints
  rw [nvda500Leg_spreadPct]
  norm_num [nvda500Leg]

/-- C6 counterexample: at the claimed scenario (bid 28.40, ask 28.60, spread
≈0.70% of mid) the Step 3 tier code yields POOR, not the claimed
"acceptable" — the acceptable tier stops at 0.5% of mid. -/
theorem nvda500Leg_tier_not_acceptable :
    spreadTier nvda500Leg = .POOR ∧ spreadTier nvda500Leg ≠ .ACCEPTABLE := by
  have h : spreadTier nvda500Leg = .POOR := by
    norm_num [spreadTier, nvda500Leg_spreadPct]
  exact ⟨h, by rw [h]; exact fun hc => by cases hc⟩

/-- C6 amended: a spread strictly between 0.5% and 1.0% of mid triggers the
warning criterion, falls in the POOR (warning) tier, and does not trigger the
1.0% hard-reject criterion; the concrete scenario leg is approved with that
warning attached and tier POOR. -/
theorem liquidityGate_subcap_spread_warns (leg : LiquidityLeg) :
    (5 / 10 < spreadPctOfMid leg → spreadPctOfMid leg < 1 →
      spreadWarning leg ∧ spreadTier leg = .POOR ∧ ¬spreadPctOfMid leg > 1) ∧
    liquidityStatus nvda500Leg = .APPROVED ∧
    spreadWarning nvda500Leg ∧
    spreadTier nvda500Leg = .POOR := by
  constructor
  · intro h1 h2
    refine ⟨⟨h1, h2.le⟩, ?_, not_lt_of_lt h2⟩
    unfold spreadTier
    rw [if_neg (by linarith), if_neg (by linarith), if_pos h2.le]
  · have hnr : ¬automaticReject nvda500Leg := by
      unfold automaticReject
      rw [nvda500Leg_spreadPct, nvda500Leg_score]
      norm_num [nvda500Leg]
    have hap : approvalCriteria nvda500Leg := by
      unfold approvalCriteria
      rw [nvda500Leg_spreadPct, nvda500Leg_score]
      norm_num [nvda500Leg]
    refine ⟨?_, ?_, nvda500Leg_tier_not_acceptable.1⟩
    · unfold liquidityStatus
      rw [if_neg hnr, if_pos hap]
    · unfold spreadWarning
      norm_num [nvda500Leg_spreadPct]

/-- Witness for C6: the sub-cap band statement instantiated at the scenario
leg, whose spread 40/57 lies strictly between 0.5 and 1. -/
theorem liquidityGate_subcap_spread_warns_witness :
    spreadWarning nvda500Leg ∧ spreadTier nvda500Leg = .POOR ∧
      ¬spreadPctOfMid nvda500Leg > 1 :=
  (liquidityGate_subcap_spread_warns nvda500Leg).1
    (by norm_num [nvda500Leg_spreadPct]) (by norm_num [nvda500Leg_spreadPct])

/-! ### Profit-mechanism fitting (fit_mechanism task) -/

/-- Trend classification of Step 2 of fit_mechanism. -/
inductive TrendState
  | STRONG_UPTREND
  | UPTREND
  | WEAK_UPTREND
  | STRONG_DOWNTREND
  | DOWNTREND
  | RANGE_BOUND
deriving DecidableEq

/-- Momentum classification of Step 2 of fit_mechanism. -/
inductive MomentumState
  | STRONG_MOMENTUM
  | MODERATE_MOMENTUM
  | NEUTRAL
  | NEGATIVE_MOMENTUM
deriving DecidableEq

/-- Volatility-premium classification of Step 2 of fit_mechanism. -/
inductive VolPremiumState
  | OVERPRICED
  | UNDERPRICED
  | FAIR
deriving DecidableEq

/-- The fixed set of profit mechanisms. -/
inductive Mechanism
  | EARNINGS_VOLATILITY
  | VRP
  | MOMENTUM_DRIFT
  | MEAN_REVERSION
  | NO_EDGE
deriving DecidableEq

/-- `earningsWithin e n` holds when an earnings date is provided and lies
within `n` days. -/
def earningsWithin (e : Option ℚ) (n : ℚ) : Prop :=
  ∃ d, e = some d ∧ d ≤ n

instance (e : Option ℚ) (n : ℚ) : Decidable (earningsWithin e n) :=
  match e with
  | none => isFalse (by rintro ⟨d, hd, -⟩; cases hd)
  | some d =>
      decidable_of_iff (d ≤ n) (by
        constructor
        · intro h
          exact ⟨d, rfl, h⟩
        · rintro ⟨d2, hd2, h⟩
          cases hd2
          exact h)

/-- Input record of the fit_mechanism task. -/
structure MechanismInput where
  daysToEarnings : Option ℚ
  ivRank : ℚ
  volPremiumState : VolPremiumState
  trendState : TrendState
  momentumState : MomentumState
  marketDisposition : Disposition
  priceDeviationSigma : ℚ
  correlationWithExisting : ℚ
  technicalQualityScore : ℚ
  liquidityInsufficient : Bool
  conflictsWithDisposition : Bool

/-- Step 3 decision tree: mechanisms tried in strict priority order
(earnings-volatility, VRP, momentum-drift, mean-reversion), falling through
to no-edge. -/
def matchMechanism (inp : MechanismInput) : Mechanism :=
  if earningsWithin inp.daysToEarnings 30 ∧ inp.ivRank < 40 then .EARNINGS_VOLATILITY
  else if inp.volPremiumState = .OVERPRICED ∧ inp.ivRank > 60 ∧
      (inp.trendState = .RANGE_BOUND ∨ inp.trendState = .WEAK_UPTREND) then .VRP
  else if (inp.momentumState = .STRONG_MOMENTUM ∨ inp.momentumState = .MODERATE_MOMENTUM) ∧
      (inp.trendState = .STRONG_UPTREND ∨ inp.trendState = .UPTREND) ∧
      (inp.marketDisposition = .STRONG_BULL ∨ inp.marketDisposition = .BULL) then .MOMENTUM_DRIFT
  else if inp.trendState = .RANGE_BOUND ∧ inp.priceDeviationSigma > 2 then .MEAN_REVERSION
  else .NO_EDGE

/-- Decision-rules "Override Conditions": force no-edge on an earnings
blackout (within 7 days), insufficient liquidity, correlation above 0.8 with
an existing position, disposition conflict, or technical quality below 5/10. -/
def overrideToNoEdge (inp : MechanismInput) : Prop :=
  earningsWithin inp.daysToEarnings 7 ∨
  inp.liquidityInsufficient = true ∨
  inp.correlationWithExisting > 4 / 5 ∨
  inp.conflictsWithDisposition = true ∨
  inp.technicalQualityScore < 5

instance (inp : MechanismInput) : Decidable (overrideToNoEdge inp) := by
  unfold overrideToNoEdge
  infer_instance

/-- The fit_mechanism selector: the overrides take precedence over the Step 3
priority match. -/
def fitMechanism (inp : MechanismInput) : Mechanism :=
  if overrideToNoEdge inp then .NO_EDGE else matchMechanism inp

/-- C8: an earnings event inside the 7-day blackout, a correlation above 0.8
to an existing holding, or a technical-quality score below 5/10 each force the
selector's output to no-edge, whatever the Step 3 priority match would say. -/
theorem mechanismSelector_override_no_edge (inp : MechanismInput)
    (h : earningsWithin inp.daysToEarnings 7 ∨
         inp.correlationWithExisting > 4 / 5 ∨
         inp.technicalQualityScore < 5) :
    fitMechanism inp = .NO_EDGE := by
  unfold fitMechanism
  rw [if_pos]
  rcases h with h | h | h
  · exact Or.inl h
  · exact Or.inr (Or.inr (Or.inl h))
  · exact Or.inr (Or.inr (Or.inr (Or.inr h)))

/-- C8 witness input: earnings in 5 days with IV rank 30, so the Step 3 match
alone would choose earnings-volatility, but the blackout override applies. -/
def blackoutInput : MechanismInput :=
  { daysToEarnings := some 5
    ivRank := 30
    volPremiumState := .FAIR
    trendState := .UPTREND
    momentumState := .STRONG_MOMENTUM
    marketDisposition := .BULL
    priceDeviationSigma := 0
    correlationWithExisting := 1 / 5
    technicalQualityScore := 9
    liquidityInsufficient := false
    conflictsWithDisposition := false }

/-- Witness for C8: on the blackout input the raw match is earnings-volatility
yet the selector returns no-edge. -/
theorem mechanismSelector_override_no_edge_witness :
    matchMechanism blackoutInput = .EARNINGS_VOLATILITY ∧
      fitMechanism blackoutInput = .NO_EDGE := by
  constructor
  · unfold matchMechanism
    rw [if_pos]
    exact ⟨⟨5, rfl, by norm_num⟩, by norm_num [blackoutInput]⟩
  · exact mechanismSelector_override_no_edge blackoutInput
      (Or.inl ⟨5, rfl, by norm_num⟩)

/-! ### Beta weighting (calc_beta_weighting task) -/

/-- One row of the portfolio CSV: delta and beta may be missing. -/
structure RawPosition where
  positionDelta : Option ℚ
  stockPrice : ℚ
  beta : Option ℚ

/-- Step 2 formula for one position, with the decision-rules handling of
missing fields: a missing beta defaults to 1.0, a missing delta skips the
position. -/
def positionBetaWeightedDelta (spyPrice : ℚ) (p : RawPosition) : Option ℚ :=
  match p.positionDelta with
  | none => none
  | some d => some (d * p.beta.getD 1 * p.stockPrice / spyPrice)

/-- The calc_beta_weighting total: zero or negative prices are rejected with
an error; otherwise the per-position values are summed, skipping positions
with a missing delta. -/
def calcBetaWeighting (spyPrice : ℚ) (ps : List RawPosition) : Except String ℚ :=
  if ∃ p ∈ ps, p.stockPrice ≤ 0 then .error "Zero or negative price"
  else .ok (List.sum (ps.filterMap (positionBetaWeightedDelta spyPrice)))

/-- C9 counterexample: a portfolio whose first position has no beta and whose
second has no delta is not aborted: the total is produced with beta defaulted
to 1.0 (50 × 1 × 100 / 100 = 50) and the delta-less position skipped. -/
theorem betaWeighting_substitutes_defaults :
    calcBetaWeighting 100
        [{ positionDelta := some 50, stockPrice := 100, beta := none },
         { positionDelta := none, stockPrice := 100, beta := some 2 }] =
      Except.ok 50 := by
  unfold calcBetaWeighting
  rw [if_neg (by norm_num)]
  norm_num [List.filterMap_cons, positionBetaWeightedDelta]

/-- C9 amended: per the task's decision rules, a missing beta is replaced by
the market beta 1.0, a position with a missing delta is skipped while the
total is still produced, and only zero-or-negative prices abort with an
error. -/
theorem betaWeighting_missing_field_handling (spy : ℚ) (p q : RawPosition)
    (ps : List RawPosition) (hp : p.beta = none) (hq : q.positionDelta = none)
    (hqpos : 0 < q.stockPrice) :
    calcBetaWeighting spy (p :: ps) =
        calcBetaWeighting spy ({ p with beta := some 1 } :: ps) ∧
    calcBetaWeighting spy (q :: ps) = calcBetaWeighting spy ps ∧
    ∀ r ∈ ps, r.stockPrice ≤ 0 → ∃ e, calcBetaWeighting spy ps = Except.error e := by
  refine ⟨?_, ?_, ?_⟩
  · have hval : positionBetaWeightedDelta spy p =
        positionBetaWeightedDelta spy { p with beta := some 1 } := by
      unfold positionBetaWeightedDelta
      cases p.positionDelta with
      | none => rfl
      | some d =>
          rw [hp]
          simp
    unfold calcBetaWeighting
    have hcond : (∃ x ∈ p :: ps, x.stockPrice ≤ 0) ↔
        (∃ x ∈ ({ p with beta := some 1 } :: ps), x.stockPrice ≤ 0) := by
      simp only [List.mem_cons, exists_eq_or_imp]
    by_cases hc : ∃ x ∈ p :: ps, x.stockPrice ≤ 0
    · rw [if_pos hc, if_pos (hcond.mp hc)]
    · rw [if_neg hc, if_neg (fun h => hc (hcond.mpr h)), List.filterMap_cons,
        List.filterMap_cons, hval]
  · have hskip : positionBetaWeightedDelta spy q = none := by
      unfold positionBetaWeightedDelta
      rw [hq]
    unfold calcBetaWeighting
    have hcond : (∃ x ∈ q :: ps, x.stockPrice ≤ 0) ↔ ∃ x ∈ ps, x.stockPrice ≤ 0 := by
      simp only [List.mem_cons, exists_eq_or_imp, not_le.mpr hqpos, false_or]
    by_cases hc : ∃ x ∈ ps, x.stockPrice ≤ 0
    · rw [if_pos (hcond.mpr hc), if_pos hc]
    · rw [if_neg (fun h => hc (hcond.mp h)), if_neg hc, List.filterMap_cons, hskip]
  · intro r hr hle
    rw [calcBetaWeighting, if_pos ⟨r, hr, hle⟩]
    exact ⟨_, rfl⟩

/-- Witness for C9: the missing-field behaviour instantiated on a concrete
portfolio (AAPL-style row without beta, a delta-less row, and one complete
row). -/
theorem betaWeighting_missing_field_handling_witness :
    calcBetaWeighting 450
        ({ positionDelta := some 50, stockPrice := 180, beta := none } ::
          [{ positionDelta := some 10, stockPrice := 50, beta := some 1 }]) =
      calcBetaWeighting 450
        ({ positionDelta := some 50, stockPrice := 180, beta := some 1 } ::
          [{ positionDelta := some 10, stockPrice := 50, beta := some 1 }]) ∧
    calcBetaWeighting 450
        ({ positionDelta := none, stockPrice := 100, beta := some 2 } ::
          [{ positionDelta := some 10, stockPrice := 50, beta := some 1 }]) =
      calcBetaWeighting 450
        [{ positionDelta := some 10, stockPrice := 50, beta := some 1 }] ∧
    ∀ r ∈ [({ positionDelta := some 10, stockPrice := 50, beta := some 1 } : RawPosition)],
      r.stockPrice ≤ 0 →
        ∃ e, calcBetaWeighting 450
            [{ positionDelta := some 10, stockPrice := 50, beta := some 1 }] =
          Except.error e :=
  betaWeighting_missing_field_handling 450
    { positionDelta := some 50, stockPrice := 180, beta := none }
    { positionDelta := none, stockPrice := 100, beta := some 2 }
    [{ positionDelta := some 10, stockPrice := 50, beta := some 1 }]
    rfl rfl (by norm_num)

/-! ### Portfolio ledger and pre-trade checklist gate (pre_trade_checklist task) -/

/-- One open position tracked by the portfolio ledger: ticker (as a numeric
id), dollar exposure, and dollar open risk. -/
structure LedgerPosition where
  ticker : ℕ
  exposure : ℚ
  risk : ℚ

/-- The portfolio ledger: open positions plus total portfolio value. -/
structure PortfolioLedger where
  positions : List LedgerPosition
  totalValue : ℚ

/-- Aggregate open risk: the sum of all open positions' dollar risks. -/
def aggregateOpenRisk (L : PortfolioLedger) : ℚ :=
  (L.positions.map (fun p => p.risk)).sum

/-- Dollar exposure of the ledger to a single ticker. -/
def tickerExposure (L : PortfolioLedger) (t : ℕ) : ℚ :=
  (L.positions.map (fun p => if p.ticker = t then p.exposure else 0)).sum

/-- Dollar exposure of the correlated group anchored at ticker `t`: positions
in the same ticker or whose correlation with `t` exceeds 0.8. -/
def correlatedGroupExposure (corr : ℕ → ℕ → ℚ) (L : PortfolioLedger) (t : ℕ) : ℚ :=
  (L.positions.map
    (fun p => if p.ticker = t ∨ corr t p.ticker > 4 / 5 then p.exposure else 0)).sum

/-- The three ledger-wide exposure limits of the spec: aggregate open risk at
most 15% of portfolio value, every held ticker's exposure at most 15%, and
every held ticker's correlated-group exposure at most 25%. -/
def ledgerOk (corr : ℕ → ℕ → ℚ) (L : PortfolioLedger) : Prop :=
  aggregateOpenRisk L ≤ 15 / 100 * L.totalValue ∧
  (∀ p ∈ L.positions, tickerExposure L p.ticker ≤ 15 / 100 * L.totalValue) ∧
  (∀ p ∈ L.positions, correlatedGroupExposure corr L p.ticker ≤ 25 / 100 * L.totalValue)

/-- Direction of the candidate trade. -/
inductive TradeDirection
  | bullish
  | bearish
  | neutralDir
deriving DecidableEq

/-- Everything the pre-trade checklist reads about the candidate trade. -/
structure TradeInput where
  ticker : ℕ
  positionSize : ℕ
  liquidityApproved : Bool
  liquiditySpreadPct : ℚ
  daysToEarnings : Option ℚ
  isEarningsPlay : Bool
  highImpactEventSoon : Bool
  costPerContract : ℚ
  maxLossPerContract : ℚ
  positionType : PositionType
  conviction : ConvictionLevel
  marketDisposition : Disposition
  tradeDirection : TradeDirection
  sectorRelativeStrength : ℚ
  distanceToSupportPct : ℚ
  distanceToResistancePct : ℚ
  priceNearSupport : Bool
  maDowntrendAligned : Bool
  potentialProfit : ℚ
  potentialLoss : ℚ
  marketOpen : Bool
  requiresMargin : Bool
  marginAvailable : ℚ
  marginNeeded : ℚ
  accountCash : ℚ
  capitalRequired : ℚ
  minDaysToExpiration : ℕ

/-- Dollar exposure the candidate trade would add. -/
def newExposure (inp : TradeInput) : ℚ :=
  (inp.positionSize : ℚ) * inp.costPerContract

/-- Dollar risk the candidate trade would add (its max loss). -/
def newRisk (inp : TradeInput) : ℚ :=
  (inp.positionSize : ℚ) * inp.maxLossPerContract

/-- Pass/warn/fail outcome of one checklist section. -/
inductive Outcome
  | pass
  | warn
  | fail
deriving DecidableEq

/-- SECTION 1: liquidity verification — the check_liquidity verdict must be
APPROVED and the spread at most 0.5%. -/
def section1Liquidity (inp : TradeInput) : Outcome :=
  if inp.liquidityApproved = false ∨ inp.liquiditySpreadPct > 5 / 10 then .fail
  else .pass

/-- SECTION 2: event risk — earnings within 7 days reject; earnings within 14
days (for a non-earnings play) or a high-impact economic event flag. -/
def section2EventRisk (inp : TradeInput) : Outcome :=
  if earningsWithin inp.daysToEarnings 7 then .fail
  else if (earningsWithin inp.daysToEarnings 14 ∧ inp.isEarningsPlay = false) ∨
      inp.highImpactEventSoon = true then .warn
  else .pass

/-- SECTION 3: correlation and concentration — reject when combined exposure
to the same ticker would exceed 15% of portfolio value, or when a correlation
above 0.8 exists and the combined correlated exposure would exceed 25%;
moderate or high correlation flags a warning. -/
def section3Correlation (corr : ℕ → ℕ → ℚ) (L : PortfolioLedger) (inp : TradeInput) :
    Outcome :=
  if (∃ p ∈ L.positions, p.ticker = inp.ticker) ∧
      (tickerExposure L inp.ticker + newExposure inp) / L.totalValue * 100 > 15 then .fail
  else if (∃ p ∈ L.positions, corr inp.ticker p.ticker > 4 / 5) ∧
      (correlatedGroupExposure corr L inp.ticker + newExposure inp) / L.totalValue * 100 > 25
    then .fail
  else if ∃ p ∈ L.positions, corr inp.ticker p.ticker > 3 / 5 then .warn
  else .pass

/-- SECTION 4 position-size cap (percent of portfolio): 10% core, 2% speculative. -/
def gateMaxPositionPct : PositionType → ℚ
  | .core => 10
  | .speculative => 2

/-- SECTION 4: position-size validation — reject when position value exceeds
the classification cap, when per-trade risk exceeds the SECTION 4 risk table,
or when risk exceeds the 5% absolute maximum. -/
def section4PositionSize (L : PortfolioLedger) (inp : TradeInput) : Outcome :=
  if newExposure inp / L.totalValue * 100 > gateMaxPositionPct inp.positionType then .fail
  else if newRisk inp / L.totalValue * 100 >
      gateMaxRiskAllowed inp.positionType inp.conviction * 100 then .fail
  else if newRisk inp / L.totalValue * 100 > 5 then .fail
  else .pass

/-- SECTION 5: market-disposition alignment — counter-trend trades and
bullish trades in a weak sector are warnings requiring acknowledgment. -/
def section5Disposition (inp : TradeInput) : Outcome :=
  if ((inp.marketDisposition = .STRONG_BULL ∨ inp.marketDisposition = .BULL) ∧
        inp.tradeDirection = .bearish) ∨
      ((inp.marketDisposition = .STRONG_BEAR ∨ inp.marketDisposition = .BEAR) ∧
        inp.tradeDirection = .bullish) ∨
      (inp.sectorRelativeStrength < -5 ∧ inp.tradeDirection = .bullish) then .warn
  else .pass

/-- SECTION 6: technical setup — a bullish trade against a fully aligned
moving-average downtrend rejects; marginal setups warn. -/
def section6Technical (inp : TradeInput) : Outcome :=
  if inp.maDowntrendAligned = true ∧ inp.tradeDirection = .bullish then .fail
  else if (inp.tradeDirection = .bullish ∧
        (inp.distanceToSupportPct > 5 ∨ inp.distanceToResistancePct < 2)) ∨
      (inp.tradeDirection = .bearish ∧ inp.priceNearSupport = true) then .warn
  else .pass

/-- SECTION 7: risk/reward — ratio below 0.5 rejects, below 1.5 warns. -/
def section7RiskReward (inp : TradeInput) : Outcome :=
  if inp.potentialProfit / inp.potentialLoss < 5 / 10 then .fail
  else if inp.potentialProfit / inp.potentialLoss < 15 / 10 then .warn
  else .pass

/-- SECTION 8: portfolio risk budget — total open risk including the new
position above 15% of portfolio value rejects, above 10% warns. -/
def section8PortfolioRisk (L : PortfolioLedger) (inp : TradeInput) : Outcome :=
  if (aggregateOpenRisk L + newRisk inp) / L.totalValue * 100 > 15 then .fail
  else if (aggregateOpenRisk L + newRisk inp) / L.totalValue * 100 > 10 then .warn
  else .pass

/-- SECTION 9: execution feasibility — insufficient margin or cash, or a
contract within 3 days of expiration, rejects; expiration within 7 days or a
closed market warns. -/
def section9Execution (inp : TradeInput) : Outcome :=
  if (inp.requiresMargin = true ∧ inp.marginAvailable < inp.marginNeeded) ∨
      inp.accountCash < inp.capitalRequired ∨ inp.minDaysToExpiration < 3 then .fail
  else if inp.minDaysToExpiration < 7 ∨ inp.marketOpen = false then .warn
  else .pass

/-- The nine checklist sections in their fixed documented order. -/
def gateOutcomes (corr : ℕ → ℕ → ℚ) (L : PortfolioLedger) (inp : TradeInput) :
    List Outcome :=
  [section1Liquidity inp, section2EventRisk inp, section3Correlation corr L inp,
   section4PositionSize L inp, section5Disposition inp, section6Technical inp,
   section7RiskReward inp, section8PortfolioRisk L inp, section9Execution inp]

/-- Final verdict of the pre-trade checklist. -/
inductive Verdict
  | APPROVE
  | REJECT
deriving DecidableEq

/-- The fail-fast runner: sections are evaluated in order and the first
failure halts evaluation; the second component counts how many sections were
evaluated. -/
def runOutcomes : List Outcome → Verdict × ℕ
  | [] => (.APPROVE, 0)
  | o :: rest =>
      if o = .fail then (.REJECT, 1)
      else ((runOutcomes rest).1, (runOutcomes rest).2 + 1)

/-- Verdict of the pre-trade checklist on a candidate trade. -/
def preTradeVerdict (corr : ℕ → ℕ → ℚ) (L : PortfolioLedger) (inp : TradeInput) :
    Verdict :=
  (runOutcomes (gateOutcomes corr L inp)).1

/-- Number of checklist sections actually evaluated (fail-fast trace). -/
def evaluatedSections (corr : ℕ → ℕ → ℚ) (L : PortfolioLedger) (inp : TradeInput) :
    ℕ :=
  (runOutcomes (gateOutcomes corr L inp)).2

/-- On approval the gate commits the new exposure and risk to the ledger. -/
def commitTrade (L : PortfolioLedger) (inp : TradeInput) : PortfolioLedger :=
  { positions := ⟨inp.ticker, newExposure inp, newRisk inp⟩ :: L.positions
    totalValue := L.totalValue }

/-- Runner lemma: if position `i` holds the first failing outcome, the runner
rejects after evaluating exactly `i + 1` entries. -/
theorem runOutcomes_first_fail (outs : List Outcome) (i : ℕ) (hi : i < outs.length)
    (hfail : outs.getD i .pass = .fail)
    (hbefore : ∀ j, j < i → outs.getD j .pass ≠ .fail) :
    runOutcomes outs = (.REJECT, i + 1) := by
  induction outs generalizing i with
  | nil => simp at hi
  | cons o rest ih =>
      cases i with
      | zero =>
          simp only [List.getD_cons_zero] at hfail
          rw [runOutcomes, if_pos hfail]
      | succ k =>
          have ho : o ≠ .fail := by
            have h0 := hbefore 0 (Nat.succ_pos k)
            simpa using h0
          have hk : runOutcomes rest = (.REJECT, k + 1) := by
            apply ih k
            · simpa using hi
            · simpa using hfail
            · intro j hj
              have hj1 := hbefore (j + 1) (Nat.succ_lt_succ hj)
              simpa using hj1
          rw [runOutcomes, if_neg ho, hk]

/-- Runner lemma: an APPROVE verdict means no section failed. -/
theorem approve_no_fail (outs : List Outcome)
    (h : (runOutcomes outs).1 = .APPROVE) : ∀ o ∈ outs, o ≠ .fail := by
  induction outs with
  | nil =>
      intro o ho
      cases ho
  | cons o rest ih =>
      intro x hx
      by_cases hf : o = .fail
      · rw [runOutcomes, if_pos hf] at h
        cases h
      · rw [runOutcomes, if_neg hf] at h
        rcases List.mem_cons.mp hx with rfl | hx2
        · exact hf
        · exact ih h x hx2

/-- C4: the nine checklist sections are evaluated in their fixed order and
the first section that fails halts evaluation — whenever section `i` is the
first failing one, the verdict is REJECT and exactly the sections up to and
including `i` were evaluated, so no later section is ever reached. -/
theorem gate_fail_fast (corr : ℕ → ℕ → ℚ) (L : PortfolioLedger) (inp : TradeInput)
    (i : ℕ) (hi : i < (gateOutcomes corr L inp).length)
    (hfail : (gateOutcomes corr L inp).getD i .pass = .fail)
    (hbefore : ∀ j, j < i → (gateOutcomes corr L inp).getD j .pass ≠ .fail) :
    preTradeVerdict corr L inp = .REJECT ∧ evaluatedSections corr L inp = i + 1 := by
  have h := runOutcomes_first_fail (gateOutcomes corr L inp) i hi hfail hbefore
  unfold preTradeVerdict evaluatedSections
  rw [h]
  exact ⟨rfl, rfl⟩

/-- A correlation matrix with no correlated pairs, for witnesses. -/
def flatCorr : ℕ → ℕ → ℚ := fun _ _ => 0

/-- An empty $100,000 ledger. -/
def emptyLedger : PortfolioLedger :=
  { positions := [], totalValue := 100000 }

/-- C4 witness trade: clean on sections 1-3 but a speculative position worth
5% of the portfolio, which breaches SECTION 4's 2% speculative cap. -/
def oversizedTrade : TradeInput :=
  { ticker := 7
    positionSize := 5
    liquidityApproved := true
    liquiditySpreadPct := 3 / 10
    daysToEarnings := none
    isEarningsPlay := false
    highImpactEventSoon := false
    costPerContract := 1000
    maxLossPerContract := 100
    positionType := .speculative
    conviction := .HIGH
    marketDisposition := .NEUTRAL
    tradeDirection := .bullish
    sectorRelativeStrength := 0
    distanceToSupportPct := 3
    distanceToResistancePct := 3
    priceNearSupport := false
    maDowntrendAligned := false
    potentialProfit := 600
    potentialLoss := 300
    marketOpen := true
    requiresMargin := false
    marginAvailable := 0
    marginNeeded := 0
    accountCash := 50000
    capitalRequired := 5000
    minDaysToExpiration := 45 }

/-- The witness trade's section outcomes: sections 1-3 pass, section 4 fails. -/
theorem oversizedTrade_outcomes :
    gateOutcomes flatCorr emptyLedger oversizedTrade =
      [.pass, .pass, .pass, .fail, .pass, .pass, .pass, .pass, .pass] := by
  have h1 : section1Liquidity oversizedTrade = .pass := by
    norm_num [section1Liquidity, oversizedTrade]
  have h2 : section2EventRisk oversizedTrade = .pass := by
    simp [section2EventRisk, oversizedTrade, earningsWithin]
  have h3 : section3Correlation flatCorr emptyLedger oversizedTrade = .pass := by
    norm_num [section3Correlation, emptyLedger]
  have h4 : section4PositionSize emptyLedger oversizedTrade = .fail := by
    norm_num [section4PositionSize, emptyLedger, oversizedTrade, newExposure,
      gateMaxPositionPct]
  have h5 : section5Disposition oversizedTrade = .pass := by
    norm_num [section5Disposition, oversizedTrade]
    simp
  have h6 : section6Technical oversizedTrade = .pass := by
    norm_num [section6Technical, oversizedTrade]
  have h7 : section7RiskReward oversizedTrade = .pass := by
    norm_num [section7RiskReward, oversizedTrade]
  have h8 : section8PortfolioRisk emptyLedger oversizedTrade = .pass := by
    norm_num [section8PortfolioRisk, emptyLedger, oversizedTrade, newRisk,
      aggregateOpenRisk]
  have h9 : section9Execution oversizedTrade = .pass := by
    norm_num [section9Execution, oversizedTrade]
  unfold gateOutcomes
  rw [h1, h2, h3, h4, h5, h6, h7, h8, h9]

/-- Witness for C4: on the concrete oversized trade, whose first failure is
section 4, the gate rejects having evaluated exactly four sections. -/
theorem gate_fail_fast_witness :
    preTradeVerdict flatCorr emptyLedger oversizedTrade = .REJECT ∧
      evaluatedSections flatCorr emptyLedger oversizedTrade = 4 :=
  gate_fail_fast flatCorr emptyLedger oversizedTrade 3
    (by rw [oversizedTrade_outcomes]; decide)
    (by rw [oversizedTrade_outcomes]; decide)
    (by rw [oversizedTrade_outcomes]; decide)

/-- Converting a failed percentage test back to a dollar bound. -/
theorem pctBound {V x c : ℚ} (hV : 0 < V) (h : ¬x / V * 100 > c) :
    x ≤ c / 100 * V := by
  rw [not_lt, div_mul_eq_mul_div, div_le_iff hV] at h
  linarith

/-- Aggregate open risk after a commit. -/
theorem aggregateOpenRisk_commit (L : PortfolioLedger) (inp : TradeInput) :
    aggregateOpenRisk (commitTrade L inp) = newRisk inp + aggregateOpenRisk L := by
  unfold aggregateOpenRisk commitTrade
  simp

/-- Single-ticker exposure after a commit. -/
theorem tickerExposure_commit (L : PortfolioLedger) (inp : TradeInput) (t : ℕ) :
    tickerExposure (commitTrade L inp) t =
      (if inp.ticker = t then newExposure inp else 0) + tickerExposure L t := by
  unfold tickerExposure commitTrade
  simp

/-- Correlated-group exposure after a commit. -/
theorem correlatedGroupExposure_commit (corr : ℕ → ℕ → ℚ) (L : PortfolioLedger)
    (inp : TradeInput) (t : ℕ) :
    correlatedGroupExposure corr (commitTrade L inp) t =
      (if inp.ticker = t ∨ corr t inp.ticker > 4 / 5 then newExposure inp else 0) +
        correlatedGroupExposure corr L t := by
  unfold correlatedGroupExposure commitTrade
  simp

/-- A ticker held by no position has zero exposure. -/
theorem tickerExposure_zero (L : PortfolioLedger) (t : ℕ)
    (h : ∀ p ∈ L.positions, p.ticker ≠ t) : tickerExposure L t = 0 := by
  unfold tickerExposure
  apply List.sum_eq_zero
  intro x hx
  rcases List.mem_map.mp hx with ⟨p, hp, rfl⟩
  rw [if_neg (h p hp)]

/-- A correlated group with no member has zero exposure. -/
theorem correlatedGroupExposure_zero (corr : ℕ → ℕ → ℚ) (L : PortfolioLedger) (t : ℕ)
    (h : ∀ p ∈ L.positions, ¬(p.ticker = t ∨ corr t p.ticker > 4 / 5)) :
    correlatedGroupExposure corr L t = 0 := by
  unfold correlatedGroupExposure
  apply List.sum_eq_zero
  intro x hx
  rcases List.mem_map.mp hx with ⟨p, hp, rfl⟩
  rw [if_neg (h p hp)]

/-- C2 amended: starting from a ledger satisfying the exposure limits, an
approved commit keeps aggregate open risk at or below 15% of portfolio value
and every single-ticker exposure at or below 15%, and keeps the
correlated-group exposure bound for the group anchored at the traded ticker
and for every group whose anchor ticker is neither the traded ticker nor
correlated above 0.8 with it.  (Groups anchored at an existing ticker that is
correlated above 0.8 with the traded one are NOT protected; see the
counterexample.) -/
theorem gate_commit_preserves_limits (corr : ℕ → ℕ → ℚ) (L : PortfolioLedger)
    (inp : TradeInput) (hV : 0 < L.totalValue) (hrefl : ∀ u, corr u u = 1)
    (hInv : ledgerOk corr L)
    (hApp : preTradeVerdict corr L inp = .APPROVE) :
    aggregateOpenRisk (commitTrade L inp) ≤ 15 / 100 * L.totalValue ∧
    (∀ p ∈ (commitTrade L inp).positions,
        tickerExposure (commitTrade L inp) p.ticker ≤ 15 / 100 * L.totalValue) ∧
    correlatedGroupExposure corr (commitTrade L inp) inp.ticker ≤
      25 / 100 * L.totalValue ∧
    (∀ p ∈ L.positions, p.ticker ≠ inp.ticker → ¬corr p.ticker inp.ticker > 4 / 5 →
        correlatedGroupExposure corr (commitTrade L inp) p.ticker ≤
          25 / 100 * L.totalValue) := by
  obtain ⟨hInvRisk, hInvTicker, hInvGroup⟩ := hInv
  have hNoFail := approve_no_fail _ hApp
  have h3 : section3Correlation corr L inp ≠ .fail :=
    hNoFail _ (by simp [gateOutcomes])
  have h4 : section4PositionSize L inp ≠ .fail :=
    hNoFail _ (by simp [gateOutcomes])
  have h8 : section8PortfolioRisk L inp ≠ .fail :=
    hNoFail _ (by simp [gateOutcomes])
  -- Section 3: the two rejection conditions did not hold.
  have h3a : ¬((∃ p ∈ L.positions, p.ticker = inp.ticker) ∧
      (tickerExposure L inp.ticker + newExposure inp) / L.totalValue * 100 > 15) := by
    intro hc
    exact h3 (by unfold section3Correlation; rw [if_pos hc])
  have h3b : ¬((∃ p ∈ L.positions, corr inp.ticker p.ticker > 4 / 5) ∧
      (correlatedGroupExposure corr L inp.ticker + newExposure inp) / L.totalValue * 100 >
        25) := by
    intro hc
    exact h3 (by unfold section3Correlation; rw [if_neg h3a, if_pos hc])
  -- Section 4: the position-value cap held.
  have h4a : ¬(newExposure inp / L.totalValue * 100 >
      gateMaxPositionPct inp.positionType) := by
    intro hc
    exact h4 (by unfold section4PositionSize; rw [if_pos hc])
  have hE : newExposure inp ≤ 10 / 100 * L.totalValue := by
    have h1 := pctBound hV h4a
    have h2 : gateMaxPositionPct inp.positionType / 100 * L.totalValue ≤
        10 / 100 * L.totalValue := by
      apply mul_le_mul_of_nonneg_right _ hV.le
      apply (div_le_div_right (by norm_num : (0:ℚ) < 100)).mpr
      cases inp.positionType <;> norm_num [gateMaxPositionPct]
    exact h1.trans h2
  -- Section 8: the total-risk cap held.
  have h8a : ¬((aggregateOpenRisk L + newRisk inp) / L.totalValue * 100 > 15) := by
    intro hc
    exact h8 (by unfold section8PortfolioRisk; rw [if_pos hc])
  have hAgg := pctBound hV h8a
  refine ⟨?_, ?_, ?_, ?_⟩
  · rw [aggregateOpenRisk_commit]
    linarith
  · intro p hp
    rw [tickerExposure_commit]
    by_cases ht : inp.ticker = p.ticker
    · rw [if_pos ht, ← ht]
      by_cases hsame : ∃ q ∈ L.positions, q.ticker = inp.ticker
      · have hb : ¬(tickerExposure L inp.ticker + newExposure inp) / L.totalValue * 100 >
            15 := fun hc => h3a ⟨hsame, hc⟩
        have := pctBound hV hb
        linarith
      · push_neg at hsame
        rw [tickerExposure_zero L inp.ticker hsame]
        linarith
    · rw [if_neg ht, zero_add]
      rcases List.mem_cons.mp hp with rfl | hpold
      · exact absurd rfl ht
      · exact hInvTicker p hpold
  · rw [correlatedGroupExposure_commit, if_pos (Or.inl rfl)]
    by_cases hex : ∃ q ∈ L.positions, corr inp.ticker q.ticker > 4 / 5
    · have hb : ¬(correlatedGroupExposure corr L inp.ticker + newExposure inp) /
          L.totalValue * 100 > 25 := fun hc => h3b ⟨hex, hc⟩
      have := pctBound hV hb
      linarith
    · push_neg at hex
      rw [correlatedGroupExposure_zero corr L inp.ticker]
      · linarith
      · intro q hq
        rintro (hqt | hqc)
        · have h1 := hex q hq
          rw [hqt, hrefl] at h1
          norm_num at h1
        · exact absurd hqc (by simpa using hex q hq)
  · intro p hp hne hnc
    have hnot : ¬(inp.ticker = p.ticker ∨ corr p.ticker inp.ticker > 4 / 5) := by
      rintro (h | h)
      · exact hne h.symm
      · exact hnc h
    rw [correlatedGroupExposure_commit, if_neg hnot, zero_add]
    exact hInvGroup p hp

/-- Demo correlation matrix on tickers 0, 1, 2: corr(0,1) = 0.9,
corr(1,2) = 0.85, corr(0,2) = 0.5, and 1 on the diagonal.  Correlation is not
transitive: 0 and 2 are only mildly correlated. -/
def corrDemo (a b : ℕ) : ℚ :=
  if a = b then 1
  else if (a = 0 ∧ b = 1) ∨ (a = 1 ∧ b = 0) then 9 / 10
  else if (a = 1 ∧ b = 2) ∨ (a = 2 ∧ b = 1) then 17 / 20
  else 1 / 2

/-- Demo ledger: ticker 0 with $14,000 exposure and ticker 1 with $10,000,
$1,000 open risk each, on a $100,000 portfolio. -/
def demoLedger : PortfolioLedger :=
  { positions := [⟨0, 14000, 1000⟩, ⟨1, 10000, 1000⟩]
    totalValue := 100000 }

/-- Demo candidate trade on ticker 2: five contracts at $1,000 ($5,000
exposure), $400 max loss per contract ($2,000 risk), core high-conviction,
clean on every checklist section. -/
def demoTrade : TradeInput :=
  { ticker := 2
    positionSize := 5
    liquidityApproved := true
    liquiditySpreadPct := 3 / 10
    daysToEarnings := none
    isEarningsPlay := false
    highImpactEventSoon := false
    costPerContract := 1000
    maxLossPerContract := 400
    positionType := .core
    conviction := .HIGH
    marketDisposition := .NEUTRAL
    tradeDirection := .bullish
    sectorRelativeStrength := 0
    distanceToSupportPct := 3
    distanceToResistancePct := 3
    priceNearSupport := false
    maDowntrendAligned := false
    potentialProfit := 3000
    potentialLoss := 2000
    marketOpen := true
    requiresMargin := false
    marginAvailable := 0
    marginNeeded := 0
    accountCash := 50000
    capitalRequired := 5000
    minDaysToExpiration := 45 }

/-- The demo ledger satisfies all three exposure limits. -/
theorem demoLedger_ok : ledgerOk corrDemo demoLedger := by
  refine ⟨?_, ?_, ?_⟩
  · norm_num [aggregateOpenRisk, demoLedger]
  · intro p hp
    simp only [demoLedger, List.mem_cons, List.not_mem_nil, or_false] at hp
    rcases hp with rfl | rfl
    · norm_num [tickerExposure, demoLedger]
    · norm_num [tickerExposure, demoLedger]
  · intro p hp
    simp only [demoLedger, List.mem_cons, List.not_mem_nil, or_false] at hp
    rcases hp with rfl | rfl
    · norm_num [correlatedGroupExposure, demoLedger, corrDemo]
    · norm_num [correlatedGroupExposure, demoLedger, corrDemo]

/-- The correlated-group exposure anchored at the candidate ticker 2 is just
the $10,000 ticker-1 position. -/
theorem demoGroup2 : correlatedGroupExposure corrDemo demoLedger 2 = 10000 := by
  norm_num [correlatedGroupExposure, demoLedger, corrDemo]

/-- The gate approves the demo trade (section 3 only warns: the combined
correlated exposure anchored at ticker 2 is 15%, within 25%). -/
theorem demoVerdict_approve :
    preTradeVerdict corrDemo demoLedger demoTrade = .APPROVE := by
  have h1 : section1Liquidity demoTrade = .pass := by
    norm_num [section1Liquidity, demoTrade]
  have h2 : section2EventRisk demoTrade = .pass := by
    simp [section2EventRisk, demoTrade, earningsWithin]
  have h3 : section3Correlation corrDemo demoLedger demoTrade = .warn := by
    unfold section3Correlation
    rw [if_neg, if_neg, if_pos]
    · exact ⟨⟨1, 10000, 1000⟩, by simp [demoLedger], by norm_num [corrDemo, demoTrade]⟩
    · rintro ⟨-, hB⟩
      rw [show demoTrade.ticker = 2 from rfl, demoGroup2] at hB
      norm_num [newExposure, demoTrade, demoLedger] at hB
    · rintro ⟨⟨p, hp, hpt⟩, -⟩
      simp only [demoLedger, List.mem_cons, List.not_mem_nil, or_false] at hp
      rcases hp with rfl | rfl <;> simp [demoTrade] at hpt
  have h4 : section4PositionSize demoLedger demoTrade = .pass := by
    norm_num [section4PositionSize, demoLedger, demoTrade, newExposure, newRisk,
      gateMaxPositionPct, gateMaxRiskAllowed]
  have h5 : section5Disposition demoTrade = .pass := by
    norm_num [section5Disposition, demoTrade]
    simp
  have h6 : section6Technical demoTrade = .pass := by
    norm_num [section6Technical, demoTrade]
  have h7 : section7RiskReward demoTrade = .pass := by
    norm_num [section7RiskReward, demoTrade]
  have h8 : section8PortfolioRisk demoLedger demoTrade = .pass := by
    norm_num [section8PortfolioRisk, demoLedger, demoTrade, newRisk, aggregateOpenRisk]
  have h9 : section9Execution demoTrade = .pass := by
    norm_num [section9Execution, demoTrade]
  unfold preTradeVerdict gateOutcomes
  rw [h1, h2, h3, h4, h5, h6, h7, h8, h9]
  rfl

/-- C2 counterexample: the demo ledger satisfies all three limits and the
gate approves the demo trade, yet after the commit the correlated group
anchored at existing ticker 1 holds $10,000 + $14,000 + $5,000 = $29,000 =
29% of portfolio value, breaking the 25% correlated-group bound.  The gate
only checked the group anchored at the traded ticker 2 (15%), and correlation
above 0.8 is not transitive. -/
theorem gate_commit_can_break_group_limit :
    ledgerOk corrDemo demoLedger ∧
    preTradeVerdict corrDemo demoLedger demoTrade = .APPROVE ∧
    ¬ledgerOk corrDemo (commitTrade demoLedger demoTrade) := by
  refine ⟨demoLedger_ok, demoVerdict_approve, ?_⟩
  rintro ⟨-, -, hg⟩
  have hmem : (⟨1, 10000, 1000⟩ : LedgerPosition) ∈
      (commitTrade demoLedger demoTrade).positions := by
    simp [commitTrade, demoLedger]
  have hb := hg _ hmem
  have hval : correlatedGroupExposure corrDemo (commitTrade demoLedger demoTrade) 1 =
      29000 := by
    norm_num [correlatedGroupExposure, commitTrade, demoLedger, demoTrade,
      corrDemo, newExposure]
  rw [show (⟨1, 10000, 1000⟩ : LedgerPosition).ticker = 1 from rfl, hval] at hb
  norm_num [commitTrade, demoLedger] at hb

/-- Witness for the amended C2 theorem: the preserved bounds instantiated at
the demo ledger and demo trade. -/
theorem gate_commit_preserves_limits_witness :
    aggregateOpenRisk (commitTrade demoLedger demoTrade) ≤
      15 / 100 * demoLedger.totalValue ∧
    (∀ p ∈ (commitTrade demoLedger demoTrade).positions,
        tickerExposure (commitTrade demoLedger demoTrade) p.ticker ≤
          15 / 100 * demoLedger.totalValue) ∧
    correlatedGroupExposure corrDemo (commitTrade demoLedger demoTrade)
        demoTrade.ticker ≤ 25 / 100 * demoLedger.totalValue ∧
    (∀ p ∈ demoLedger.positions, p.ticker ≠ demoTrade.ticker →
        ¬corrDemo p.ticker demoTrade.ticker > 4 / 5 →
        correlatedGroupExposure corrDemo (commitTrade demoLedger demoTrade)
            p.ticker ≤ 25 / 100 * demoLedger.totalValue) :=
  gate_commit_preserves_limits corrDemo demoLedger demoTrade
    (by norm_num [demoLedger]) (by intro u; simp [corrDemo])
    demoLedger_ok demoVerdict_approve

end SystematicAlpha
